import Mathlib

/-
Verification of the background-worker queue (src/util/worker/mod.rs) and the
region-merge coordinator (src/raftstore/store/worker/merge.rs) of this
repository, by a shallow embedding into Lean.  Machine integers are modelled
as Nat with explicit reduction modulo 2^64 where wrap-around matters; fallible
operations return Option or Except; the environment (network, resolver) is
passed in explicitly as data.
-/

namespace Tikv

/-- Replica identity (kvproto metapb.Peer, the two fields merge.rs uses):
peer id and hosting store id. -/
structure Peer where
  id : Nat
  store_id : Nat
deriving DecidableEq

/-- Partition descriptor (kvproto metapb.Region as used by merge.rs):
region id and the ordered list of peers returned by get_peers(). -/
structure Region where
  id : Nat
  peers : List Peer
deriving DecidableEq

/-- Network address (std SocketAddr), abstracted to a number; merge.rs only
stores, passes and prints it. -/
abbrev SockAddr := Nat

/-- TaskType from merge.rs. -/
inductive TaskType where
  | SuspendRegion
  | ShutdownRegion
deriving DecidableEq

/-- TaskContext from merge.rs: the data a resolve callback carries across the
asynchronous boundary into an AfterResolve task. -/
structure TaskContext where
  task_type : TaskType
  region : Region
  peer : Peer
  local_region : Region
  local_peer : Peer
  address : SockAddr
deriving DecidableEq

/-- Task enum from merge.rs: the elements of the merge coordinator queue. -/
inductive Task where
  | SuspendRegion (region : Region) (leader : Peer) (local_region : Region) (local_peer : Peer)
  | CommitMerge (region : Region) (peer : Peer)
  | ShutdownRegion (region : Region) (leader : Peer)
  | AfterResolve (context : TaskContext)
deriving DecidableEq

/-- Iterator::position over a peer list (merge.rs next_peer uses
peers.iter().position(.. get_id() == last_peer_id)): index of the first
element satisfying the predicate. -/
def position (pred : Peer → Bool) : List Peer → Option Nat
  | [] => none
  | p :: rest => if pred p then some 0 else (position pred rest).map (· + 1)

/-- next_peer from merge.rs: round-robin successor of last_peer (matched by
peer id) in the region's peer list; first peer if absent; last_peer itself if
the list is empty. -/
def next_peer (region : Region) (last_peer : Peer) : Peer :=
  let last_peer_id := last_peer.id
  let peers := region.peers
  match position (fun p => p.id == last_peer_id) peers with
  | some index => peers.getD ((index + 1) % peers.length) last_peer
  | none => if peers.length = 0 then last_peer else peers.getD 0 last_peer

/-- Runner::handle_suspend_region from merge.rs.  The handler submits one
resolve request for the leader's store id, paired with a callback that turns
the resolver's outcome into the next task to schedule.  We return exactly
that pair: the requested store id and the continuation. -/
def handle_suspend_region (region : Region) (leader : Peer)
    (local_region : Region) (local_peer : Peer) :
    Nat × (Except Unit SockAddr → Task) :=
  let store_id := leader.store_id
  let last_peer := leader
  (store_id,
    fun r =>
      match r with
      | Except.ok addr =>
          Task.AfterResolve
            { task_type := TaskType.SuspendRegion
              region := region
              peer := last_peer
              local_region := local_region
              local_peer := local_peer
              address := addr }
      | Except.error _ =>
          Task.SuspendRegion region (next_peer region last_peer) local_region local_peer)

/-- Runner::handle_after_resolve from merge.rs, parametrized by the outcome of
client.send_suspend_region (ok or error); returns the task it schedules
(none in the unimplemented ShutdownRegion branch, which schedules nothing). -/
def handle_after_resolve (context : TaskContext) (send_result : Except Unit Unit) :
    Option Task :=
  match context.task_type with
  | TaskType.SuspendRegion =>
      match send_result with
      | Except.ok _ =>
          some (Task.CommitMerge context.local_region context.local_peer)
      | Except.error _ =>
          some (Task.SuspendRegion context.region
            (next_peer context.region context.peer) context.local_region context.local_peer)
  | TaskType.ShutdownRegion => none

/-- Debug-formatting of a peer, standing in for Rust's derived Debug output;
the exact text is irrelevant to the claims, only which fields feed it. -/
def fmtPeer (p : Peer) : String :=
  "Peer [id: " ++ toString p.id ++ ", store_id: " ++ toString p.store_id ++ "]"

/-- Debug-formatting of a region, standing in for Rust's derived Debug output. -/
def fmtRegion (r : Region) : String :=
  "Region [id: " ++ toString r.id ++ ", peers: " ++
    String.intercalate ", " (r.peers.map fmtPeer) ++ "]"

/-- Debug-formatting of a task type. -/
def fmtTaskType : TaskType → String
  | TaskType.SuspendRegion => "SuspendRegion"
  | TaskType.ShutdownRegion => "ShutdownRegion"

/-- The Display impl for TaskContext in merge.rs, as the list of the string
pieces it writes in order.  The write! call interpolates, in order:
self.task_type, self.region, self.peer, self.region (sic - the argument
supplied for the local_region slot is self.region again), self.local_peer,
self.address. -/
def fmtTaskContextPieces (c : TaskContext) : List String :=
  ["task context, type ", fmtTaskType c.task_type,
   ", region ", fmtRegion c.region,
   ", peer ", fmtPeer c.peer,
   ", local_region: ", fmtRegion c.region,
   ", local_peer: ", fmtPeer c.local_peer,
   ", address: ", toString c.address]

/-- The Display impl for TaskContext in merge.rs: the full formatted string. -/
def fmtTaskContext (c : TaskContext) : String :=
  String.join (fmtTaskContextPieces c)

/-
The worker queue, src/util/worker/mod.rs.  The single-consumer channel is a
list of Option T values in send order (Some task, or the None stop sentinel);
the consumer (poll) reads from its front.  RecvEnd tracks who holds the
channel's receiving end: the Worker (before start), the consumer thread, or
nobody (the thread exited and dropped it - sends then fail).
-/

/-- Location of the channel's Receiver. -/
inductive RecvEnd where
  | inWorker
  | inThread
  | dropped
deriving DecidableEq

/-- State of one Worker, its Scheduler and its channel.  handleSome models
self.handle.is_some(); everStarted is a ghost field recording whether
start_batch ever spawned a thread; counter is the shared live-task
AtomicUsize; queue is the channel content (front = oldest); batchSize is the
batch_size given to start_batch; ranBatches is a ghost history of the
batches passed to runner.run_batch. -/
structure WorkerSt (T : Type) where
  recvEnd : RecvEnd
  handleSome : Bool
  everStarted : Bool
  counter : Nat
  queue : List (Option T)
  batchSize : Nat
  ranBatches : List (List T)
deriving DecidableEq

/-- Worker::new: receiver held by the Worker, no handle, empty channel,
counter 0. -/
def newWorker (T : Type) : WorkerSt T :=
  { recvEnd := RecvEnd.inWorker
    handleSome := false
    everStarted := false
    counter := 0
    queue := []
    batchSize := 1
    ranBatches := [] }

/-- Worker::start_batch.  If the receiver has already been taken
(receiver.is_none()), it logs and returns Ok(()) without touching anything;
otherwise it moves the receiver into a new consumer thread and stores the
join handle.  The returned Bool records whether a thread was spawned; the
Rust io::Error from thread creation is not modelled (the taken-receiver
branch returns Ok before any spawn is attempted). -/
def start_batch {T : Type} (st : WorkerSt T) (batch_size : Nat) : WorkerSt T × Bool :=
  if st.recvEnd ≠ RecvEnd.inWorker then (st, false)
  else
    ({ st with
        recvEnd := RecvEnd.inThread
        handleSome := true
        everStarted := true
        batchSize := batch_size }, true)

/-- Scheduler::schedule.  sender.send(Some(task)) fails exactly when the
receiving end has been dropped, giving back the task, which schedule returns
as Err(Stopped(task)) (second component some task); on success the task is
appended to the channel and the live counter incremented. -/
def schedule {T : Type} (st : WorkerSt T) (task : T) : WorkerSt T × Option T :=
  if st.recvEnd = RecvEnd.dropped then (st, some task)
  else
    ({ st with queue := st.queue ++ [some task], counter := st.counter + 1 }, none)

/-- Worker::stop.  Returns None (Bool false) when there is no handle;
otherwise sends the None sentinel (a no-op send failure if the receiver is
already gone) and takes the handle. -/
def stop {T : Type} (st : WorkerSt T) : WorkerSt T × Bool :=
  if st.handleSome = false then (st, false)
  else
    let st1 :=
      if st.recvEnd = RecvEnd.dropped then st
      else { st with queue := st.queue ++ [none] }
    ({ st1 with handleSome := false }, true)

/-- The inner drain loop of poll in mod.rs: while buffer.len() < batch_size,
try_recv; Ok(None) clears keep_going and breaks (sentinel consumed),
Ok(Some(t)) extends the buffer, an empty channel breaks.  Returns the final
buffer, the remaining channel content and the keep_going flag. -/
def drainLoop {T : Type} (bs : Nat) : List T → List (Option T) → List T × List (Option T) × Bool
  | buf, [] => (buf, [], true)
  | buf, none :: rest =>
      if buf.length < bs then (buf, rest, false) else (buf, none :: rest, true)
  | buf, some t :: rest =>
      if buf.length < bs then drainLoop bs (buf ++ [t]) rest else (buf, some t :: rest, true)

/-- One blocking-recv-plus-drain cycle of poll, run over a channel content
given as a list (recv on the empty list, i.e. nothing further ever sent,
ends the run), with fuel bounding the number of outer iterations; each
iteration consumes at least one channel element, so fuel = channel length
is always enough.  Returns the list of batches handed to run_batch. -/
def pollRunFuel {T : Type} (bs : Nat) : Nat → List (Option T) → List (List T)
  | 0, _ => []
  | _ + 1, [] => []
  | _ + 1, none :: _ => []
  | fuel + 1, some t :: rest =>
      let r := drainLoop bs [t] rest
      if r.2.2 then r.1 :: pollRunFuel bs fuel r.2.1 else [r.1]

/-- The consumer loop poll of mod.rs over a complete channel content: the
sequence of batches handed to the handler before the thread exits. -/
def pollRun {T : Type} (bs : Nat) (q : List (Option T)) : List (List T) :=
  pollRunFuel bs q.length q

/-- The tasks of a channel content that sit ahead of the first stop sentinel
(the whole content if there is none). -/
def readyPrefix {T : Type} (q : List (Option T)) : List T :=
  (q.takeWhile Option.isSome).filterMap id

/-- The dequeue half of one poll iteration: blocking recv (a no-op if the
queue is empty - more sends would be needed), thread exit on the sentinel,
otherwise the inner drain and the counter.fetch_sub by the batch length.
Returns the new state, the batch about to be handed to run_batch (none if no
batch was collected) and the keep_going flag.  The counter decrement happens
here, before the handler runs. -/
def pullPhase {T : Type} (st : WorkerSt T) : WorkerSt T × Option (List T) × Bool :=
  if st.recvEnd = RecvEnd.inThread then
    match st.queue with
    | [] => (st, none, true)
    | none :: rest => ({ st with recvEnd := RecvEnd.dropped, queue := rest }, none, false)
    | some t :: rest =>
        let r := drainLoop st.batchSize [t] rest
        ({ st with queue := r.2.1, counter := st.counter - r.1.length }, some r.1, r.2.2)
  else (st, none, true)

/-- The run half of one poll iteration: run_batch on the collected batch
(recorded in the ghost history), then thread exit (receiver drop) if
keep_going was cleared. -/
def runPhase {T : Type} (st : WorkerSt T) (batch : Option (List T)) (keep : Bool) :
    WorkerSt T :=
  let st1 :=
    match batch with
    | some b => { st with ranBatches := st.ranBatches ++ [b] }
    | none => st
  if keep then st1 else { st1 with recvEnd := RecvEnd.dropped }

/-- One full iteration of the consumer loop (or the thread exiting). -/
def pollStep {T : Type} (st : WorkerSt T) : WorkerSt T :=
  let r := pullPhase st
  runPhase r.1 r.2.1 r.2.2

/-- Worker::is_busy (and Scheduler::is_busy): handle.is_none() or live
counter > 0. -/
def is_busy {T : Type} (st : WorkerSt T) : Bool :=
  !st.handleSome || decide (0 < st.counter)

/-
RaftRpcClientCore / RaftRpcClient, merge.rs.  The network is modelled as an
environment assigning to every loop iteration the outcome of try_connect and
of send_request there: none is a failure, and a successful send_request
yields the correlation id and an (abstract, numbered) response.  Responses of
the wrong message type are send_request failures (they return Err before the
id is compared).
-/

/-- MAX_RAFT_RPC_SEND_RETRY_COUNT from merge.rs. -/
def MAX_RAFT_RPC_SEND_RETRY_COUNT : Nat := 2

/-- RAFT_RPC_RETRY_TIME_MILLIS from merge.rs. -/
def RAFT_RPC_RETRY_TIME_MILLIS : Nat := 50

/-- Environment of one iteration of the retry loop in RaftRpcClientCore::send:
the outcome of try_connect if it is attempted, and of send_request if it is
reached (none = failure; some (id, resp) = a well-formed response with
correlation id and payload). -/
structure IterEnv where
  connect : Option Unit
  sendReq : Option (Nat × Nat)
deriving DecidableEq

/-- RaftRpcClientCore state: the target address and the optional open
connection (the TcpStream, abstracted to Unit). -/
structure CoreState where
  address : SockAddr
  stream : Option Unit
deriving DecidableEq

/-- Result of RaftRpcClientCore::send. -/
inductive SendOutcome where
  | ok (resp : Nat)
  | errMismatch (want got : Nat)
  | errExhausted (address : SockAddr)
deriving DecidableEq

/-- The body of one send attempt once a connection is at hand (the stream has
been take()n): send_request, then the correlation-id check.  none = the
attempt failed and will be retried (the taken stream is dropped); some =
send returns now, with success restoring the stream and a mismatched id
dropping it. -/
def coreAttempt (msg_id : Nat) (req_out : Option (Nat × Nat)) (st : CoreState) :
    Option (SendOutcome × CoreState) :=
  match req_out with
  | none => none
  | some (id, resp) =>
      if id = msg_id then some (SendOutcome.ok resp, { st with stream := some () })
      else some (SendOutcome.errMismatch msg_id id, { st with stream := none })

/-- The retry loop of RaftRpcClientCore::send: fuel-indexed (the source runs
it with fuel MAX_RAFT_RPC_SEND_RETRY_COUNT), i the iteration index into the
environment, sleeps the accumulated backoff sleeps in milliseconds.  On
exhausted fuel it returns the generic failure naming the target address. -/
def coreSendLoop (env : Nat → IterEnv) (msg_id : Nat) :
    Nat → Nat → CoreState → List Nat → SendOutcome × CoreState × List Nat
  | 0, _, st, sleeps => (SendOutcome.errExhausted st.address, st, sleeps)
  | fuel + 1, i, st, sleeps =>
      match st.stream with
      | some _ =>
          match coreAttempt msg_id (env i).sendReq st with
          | some r => (r.1, r.2, sleeps)
          | none =>
              coreSendLoop env msg_id fuel (i + 1) { st with stream := none }
                (sleeps ++ [RAFT_RPC_RETRY_TIME_MILLIS])
      | none =>
          match (env i).connect with
          | none =>
              coreSendLoop env msg_id fuel (i + 1) st
                (sleeps ++ [RAFT_RPC_RETRY_TIME_MILLIS])
          | some _ =>
              match coreAttempt msg_id (env i).sendReq { st with stream := some () } with
              | some r => (r.1, r.2, sleeps)
              | none =>
                  coreSendLoop env msg_id fuel (i + 1) { st with stream := none }
                    (sleeps ++ [RAFT_RPC_RETRY_TIME_MILLIS])

/-- RaftRpcClientCore::send. -/
def coreSend (env : Nat → IterEnv) (msg_id : Nat) (st : CoreState) :
    SendOutcome × CoreState × List Nat :=
  coreSendLoop env msg_id MAX_RAFT_RPC_SEND_RETRY_COUNT 0 st []

/-- A usize/u64 counter wraps modulo 2^64. -/
def U64_MOD : Nat := 2 ^ 64

/-- RaftRpcClient::alloc_msg_id: msg_id.fetch_add(1) as u64 - returns the
current counter value and the wrapped incremented counter. -/
def alloc_msg_id (msg_id : Nat) : Nat × Nat :=
  (msg_id % U64_MOD, (msg_id + 1) % U64_MOD)

/-- The counter value before the k-th alloc_msg_id call of an instance
(AtomicUsize::new(0) at construction). -/
def msgIdCounterAt : Nat → Nat
  | 0 => 0
  | k + 1 => (alloc_msg_id (msgIdCounterAt k)).2

/-- The message id returned by the k-th alloc_msg_id call of an instance. -/
def msgIdSeq (k : Nat) : Nat :=
  (alloc_msg_id (msgIdCounterAt k)).1

/-
Theorems.  Helper lemmas come first, then one theorem per claim (with its
witness or counterexample where required).
-/

/-- Unfolding of readyPrefix at a buffered task. -/
theorem readyPrefix_some {T : Type} (t : T) (rest : List (Option T)) :
    readyPrefix (some t :: rest) = t :: readyPrefix rest := by
  simp [readyPrefix, List.takeWhile_cons]

/-- Unfolding of readyPrefix at the stop sentinel. -/
theorem readyPrefix_none {T : Type} (rest : List (Option T)) :
    readyPrefix (none :: rest) = [] := by
  simp [readyPrefix, List.takeWhile_cons]

/-- Unfolding of readyPrefix on an empty channel. -/
theorem readyPrefix_nil {T : Type} : readyPrefix ([] : List (Option T)) = [] := by
  simp [readyPrefix]

/-- The inner drain loop leaves at most as much in the channel as it found. -/
theorem drainLoop_rest_length {T : Type} (bs : Nat) :
    ∀ (q : List (Option T)) (buf : List T),
      (drainLoop bs buf q).2.1.length ≤ q.length := by
  intro q
  induction q with
  | nil => intro buf; simp [drainLoop]
  | cons o rest ih =>
    intro buf
    cases o with
    | none =>
      by_cases hb : buf.length < bs <;> simp [drainLoop, hb]
    | some t =>
      by_cases hb : buf.length < bs
      · simp only [drainLoop, if_pos hb]
        exact le_trans (ih (buf ++ [t])) (Nat.le_succ _)
      · simp [drainLoop, hb]

/-- What the inner drain loop collects: with keep_going still set, the buffer
plus the ready prefix of the remaining channel is the old buffer plus the
ready prefix of the old channel; with keep_going cleared (the sentinel was
reached), the buffer is exactly the old buffer plus the full ready prefix. -/
theorem drainLoop_spec {T : Type} (bs : Nat) :
    ∀ (q : List (Option T)) (buf : List T),
      ((drainLoop bs buf q).2.2 = true →
        (drainLoop bs buf q).1 ++ readyPrefix (drainLoop bs buf q).2.1
          = buf ++ readyPrefix q)
      ∧ ((drainLoop bs buf q).2.2 = false →
        (drainLoop bs buf q).1 = buf ++ readyPrefix q) := by
  intro q
  induction q with
  | nil => intro buf; simp [drainLoop, readyPrefix_nil]
  | cons o rest ih =>
    intro buf
    cases o with
    | none =>
      by_cases hb : buf.length < bs <;>
        simp [drainLoop, hb, readyPrefix_none]
    | some t =>
      by_cases hb : buf.length < bs
      · have h := ih (buf ++ [t])
        simp only [drainLoop, if_pos hb, readyPrefix_some]
        constructor
        · intro hk
          rw [h.1 hk]
          simp
        · intro hk
          rw [h.2 hk]
          simp
      · simp [drainLoop, hb, readyPrefix_some]

/-- The fuel-indexed consumer loop, with enough fuel, runs exactly the tasks
ahead of the first stop sentinel. -/
theorem pollRunFuel_flatten {T : Type} (bs : Nat) :
    ∀ (fuel : Nat) (q : List (Option T)), q.length ≤ fuel →
      (pollRunFuel bs fuel q).flatten = readyPrefix q := by
  intro fuel
  induction fuel with
  | zero =>
    intro q h
    have hq : q = [] := List.eq_nil_of_length_eq_zero (Nat.le_zero.mp h)
    subst hq
    simp [pollRunFuel, readyPrefix_nil]
  | succ n ih =>
    intro q h
    match q with
    | [] => simp [pollRunFuel, readyPrefix_nil]
    | none :: rest => simp [pollRunFuel, readyPrefix_none]
    | some t :: rest =>
      have hlen : rest.length ≤ n := by
        simp only [List.length_cons] at h
        omega
      have hspec := drainLoop_spec bs rest [t]
      by_cases hk : (drainLoop bs [t] rest).2.2 = true
      · have hrest : (drainLoop bs [t] rest).2.1.length ≤ n :=
          le_trans (drainLoop_rest_length bs rest [t]) hlen
        simp only [pollRunFuel, hk, if_true, List.flatten_cons, readyPrefix_some]
        rw [ih _ hrest]
        simpa using hspec.1 hk
      · have hk2 : (drainLoop bs [t] rest).2.2 = false := by
          cases hb : (drainLoop bs [t] rest).2.2
          · rfl
          · exact absurd hb hk
        simp only [pollRunFuel, hk2, Bool.false_eq_true, if_false, readyPrefix_some]
        simp only [List.flatten_cons, List.flatten_nil, List.append_nil]
        simpa using hspec.2 hk2

/-- position finds nothing exactly when no element satisfies the predicate. -/
theorem position_eq_none {pred : Peer → Bool} {l : List Peer}
    (h : ∀ p ∈ l, pred p = false) : position pred l = none := by
  induction l with
  | nil => rfl
  | cons p rest ih =>
    have hp : pred p = false := h p (by simp)
    have hrest : position pred rest = none := ih (fun q hq => h q (by simp [hq]))
    simp [position, hp, hrest]

/-- With pairwise distinct peer ids, position over the id-equality predicate
finds exactly the index where the peer sits. -/
theorem position_get {l : List Peer} {peer : Peer} {i : Nat} (h : i < l.length)
    (hnd : (l.map Peer.id).Nodup) (hget : l.get ⟨i, h⟩ = peer) :
    position (fun p => p.id == peer.id) l = some i := by
  induction l generalizing i with
  | nil => simp at h
  | cons p rest ih =>
    rw [List.map_cons] at hnd
    rcases List.nodup_cons.mp hnd with ⟨hpnotin, hndrest⟩
    cases i with
    | zero =>
      simp only [List.get] at hget
      subst hget
      simp [position]
    | succ j =>
      have hj : j < rest.length := by simpa using h
      have hget2 : rest.get ⟨j, hj⟩ = peer := by simpa using hget
      have hmem : peer ∈ rest := hget2 ▸ List.get_mem rest j hj
      have hpne : p.id ≠ peer.id := by
        intro hcontra
        exact hpnotin (hcontra ▸ List.mem_map_of_mem Peer.id hmem)
      have hpfalse : (p.id == peer.id) = false := by
        simpa using hpne
      simp [position, hpfalse, ih hj hndrest hget2]

/-- C1: the suspend-phase state machine.  handle_suspend_region submits a
resolve request for the leader's store id whose callback, on resolution
failure, schedules SuspendRegion with the next peer and the same
local fields, and on success with address addr schedules AfterResolve with a
context carrying addr, task_type SuspendRegion, and the same
region/peer/local fields; handle_after_resolve on a SuspendRegion context
schedules CommitMerge of the local region/peer when send_suspend_region
succeeds, and SuspendRegion with the next peer when it fails. -/
theorem c1_suspend_phase_state_machine (region : Region) (leader : Peer)
    (local_region : Region) (local_peer : Peer) (addr : SockAddr)
    (r : Region) (p : Peer) (lr : Region) (lp : Peer) (a : SockAddr) :
    (handle_suspend_region region leader local_region local_peer).1 = leader.store_id
    ∧ (handle_suspend_region region leader local_region local_peer).2 (Except.error ())
        = Task.SuspendRegion region (next_peer region leader) local_region local_peer
    ∧ (handle_suspend_region region leader local_region local_peer).2 (Except.ok addr)
        = Task.AfterResolve
            { task_type := TaskType.SuspendRegion
              region := region
              peer := leader
              local_region := local_region
              local_peer := local_peer
              address := addr }
    ∧ handle_after_resolve
        { task_type := TaskType.SuspendRegion
          region := r
          peer := p
          local_region := lr
          local_peer := lp
          address := a } (Except.ok ())
        = some (Task.CommitMerge lr lp)
    ∧ handle_after_resolve
        { task_type := TaskType.SuspendRegion
          region := r
          peer := p
          local_region := lr
          local_peer := lp
          address := a } (Except.error ())
        = some (Task.SuspendRegion r (next_peer r p) lr lp) :=
  ⟨rfl, rfl, rfl, rfl, rfl⟩

/-- C2: next_peer is a wrap-around round robin.  If the peer sits at index i
of the region's n listed peers (peer ids being pairwise distinct, the
repository's data-model invariant - the source matches peers by id), the
result is the peer at index (i+1) mod n; if no listed peer has its id and
the list is non-empty, the result is the first peer; if the list is empty,
the result is the peer itself. -/
theorem c2_next_peer_round_robin (region : Region) (peer : Peer) :
    (∀ (i : Nat) (h : i < region.peers.length),
        (region.peers.map Peer.id).Nodup →
        region.peers.get ⟨i, h⟩ = peer →
        next_peer region peer
          = region.peers.getD ((i + 1) % region.peers.length) peer)
    ∧ (region.peers ≠ [] → (∀ p ∈ region.peers, p.id ≠ peer.id) →
        next_peer region peer = region.peers.getD 0 peer)
    ∧ (region.peers = [] → next_peer region peer = peer) := by
  refine ⟨?_, ?_, ?_⟩
  · intro i h hnd hget
    have hpos := position_get h hnd hget
    simp [next_peer, hpos]
  · intro hne habs
    have hpos : position (fun p => p.id == peer.id) region.peers = none := by
      apply position_eq_none
      intro p hp
      simpa using habs p hp
    have hlen : region.peers.length ≠ 0 :=
      fun hc => hne (List.length_eq_zero.mp hc)
    simp [next_peer, hpos, hlen]
  · intro hempty
    simp [next_peer, hempty, position]

/-- Witness for c2_next_peer_round_robin at a concrete region of three peers:
the successor of the second peer is the third, an unlisted peer maps to the
first peer, and the empty region returns the peer unchanged. -/
theorem c2_next_peer_round_robin_witness :
    ((1 : Nat) < 3
      ∧ next_peer ⟨7, [⟨1, 10⟩, ⟨2, 20⟩, ⟨3, 30⟩]⟩ ⟨2, 20⟩
          = ([⟨1, 10⟩, ⟨2, 20⟩, ⟨3, 30⟩] : List Peer).getD ((1 + 1) % 3) ⟨2, 20⟩)
    ∧ next_peer ⟨7, [⟨1, 10⟩, ⟨2, 20⟩, ⟨3, 30⟩]⟩ ⟨9, 99⟩
        = ([⟨1, 10⟩, ⟨2, 20⟩, ⟨3, 30⟩] : List Peer).getD 0 ⟨9, 99⟩
    ∧ next_peer ⟨7, []⟩ ⟨9, 99⟩ = ⟨9, 99⟩ :=
  ⟨⟨by decide,
    (c2_next_peer_round_robin ⟨7, [⟨1, 10⟩, ⟨2, 20⟩, ⟨3, 30⟩]⟩ ⟨2, 20⟩).1 1
      (by decide) (by decide) (by decide)⟩,
   (c2_next_peer_round_robin ⟨7, [⟨1, 10⟩, ⟨2, 20⟩, ⟨3, 30⟩]⟩ ⟨9, 99⟩).2.1
     (by decide) (by decide),
   (c2_next_peer_round_robin ⟨7, []⟩ ⟨9, 99⟩).2.2 rfl⟩

/-- C3: worker stop semantics.  Over any channel content (the values in send
order, some task or the None stop sentinel), the tasks the consumer loop
hands to the handler before the thread exits are exactly those ahead of the
first sentinel: everything buffered before the sentinel is still run, and
nothing enqueued after it is ever processed. -/
theorem c3_stop_sentinel_drain {T : Type} (batch_size : Nat) (q : List (Option T)) :
    (pollRun batch_size q).flatten = readyPrefix q :=
  pollRunFuel_flatten batch_size q.length q (Nat.le_refl _)

/-- The inner drain loop collects a run of buffered tasks wholesale when they
fit into the remaining batch capacity. -/
theorem drainLoop_all_some {T : Type} (bs : Nat) :
    ∀ (ts : List T) (buf : List T), buf.length + ts.length ≤ bs →
      drainLoop bs buf (ts.map some) = (buf ++ ts, [], true) := by
  intro ts
  induction ts with
  | nil => intro buf h; simp [drainLoop]
  | cons t ts ih =>
    intro buf h
    simp only [List.length_cons] at h
    have hb : buf.length < bs := by omega
    have hrec := ih (buf ++ [t]) (by simp; omega)
    simp only [List.map_cons, drainLoop, if_pos hb, hrec]
    simp

/-- A consumer-loop step never hands the receiver back to the Worker: it
either keeps it in the thread or drops it on thread exit. -/
theorem pollStep_recvEnd {T : Type} (st : WorkerSt T) :
    (pollStep st).recvEnd = st.recvEnd ∨ (pollStep st).recvEnd = RecvEnd.dropped := by
  by_cases h : st.recvEnd = RecvEnd.inThread
  · cases hq : st.queue with
    | nil => simp [pollStep, pullPhase, runPhase, h, hq]
    | cons o rest =>
      cases o with
      | none => simp [pollStep, pullPhase, runPhase, h, hq]
      | some t =>
        by_cases hk : (drainLoop st.batchSize [t] rest).2.2 = true
        · simp [pollStep, pullPhase, runPhase, h, hq, hk]
        · simp [pollStep, pullPhase, runPhase, h, hq, hk]
  · simp [pollStep, pullPhase, runPhase, h]

/-- C4, counterexample to the claim as stated: a worker that was started and
then stopped has everStarted true and live counter 0, yet is_busy returns
true, because the source tests handle.is_none() (the handle was taken by
stop), not whether the thread was never started. -/
theorem c4_is_busy_counterexample :
    is_busy (stop (start_batch (newWorker Nat) 1).1).1 = true
    ∧ ((stop (start_batch (newWorker Nat) 1).1).1).everStarted = true
    ∧ ((stop (start_batch (newWorker Nat) 1).1).1).counter = 0 :=
  ⟨rfl, rfl, rfl⟩

/-- C4 amended: is_busy() returns true iff the worker currently has no thread
handle (never started, or the handle was already taken by stop()) or the
live counter is > 0; in particular it returns false as soon as all scheduled
tasks have been dequeued as one batch - the counter is decremented in the
pull phase, before the handler runs them - and it returns true immediately
after any successful schedule(). -/
theorem c4_is_busy_amended {T : Type} :
    (∀ st : WorkerSt T, is_busy st = true ↔ (st.handleSome = false ∨ 0 < st.counter))
    ∧ (∀ (st : WorkerSt T) (task : T),
        (schedule st task).2 = none → is_busy (schedule st task).1 = true)
    ∧ (∀ (st : WorkerSt T) (tasks : List T),
        st.handleSome = true → st.recvEnd = RecvEnd.inThread →
        st.queue = tasks.map some → tasks ≠ [] →
        st.counter = tasks.length → tasks.length ≤ st.batchSize →
        is_busy (pullPhase st).1 = false ∧ (pullPhase st).2.1 = some tasks) := by
  refine ⟨?_, ?_, ?_⟩
  · intro st
    cases hh : st.handleSome <;> simp [is_busy, hh]
  · intro st task hok
    by_cases hd : st.recvEnd = RecvEnd.dropped
    · simp [schedule, hd] at hok
    · simp [schedule, hd, is_busy]
  · intro st tasks hh hr hq hne hc hbs
    rcases List.exists_cons_of_ne_nil hne with ⟨t, ts, rfl⟩
    have hdr : drainLoop st.batchSize [t] (ts.map some) = ([t] ++ ts, [], true) := by
      apply drainLoop_all_some
      simp only [List.length_cons, List.length_nil] at hbs ⊢
      omega
    rw [List.map_cons] at hq
    constructor
    · simp [pullPhase, hr, hq, hdr, is_busy, hh, hc]
    · simp [pullPhase, hr, hq, hdr]

/-- Witness for c4_is_busy_amended: a running worker with two tasks queued
and counter 2 is busy after a successful schedule, and idle (counter 0) as
soon as the pull phase has dequeued both as one batch. -/
theorem c4_is_busy_amended_witness :
    (is_busy (⟨RecvEnd.inThread, true, true, 2, [some 1, some 2], 10, []⟩ : WorkerSt Nat)
        = true ↔ (false = false ∨ 0 < 2))
    ∧ ((schedule (⟨RecvEnd.inThread, true, true, 2, [some 1, some 2], 10, []⟩ : WorkerSt Nat) 5).2 = none
        ∧ is_busy (schedule (⟨RecvEnd.inThread, true, true, 2, [some 1, some 2], 10, []⟩ : WorkerSt Nat) 5).1 = true)
    ∧ (is_busy (pullPhase (⟨RecvEnd.inThread, true, true, 2, [some 1, some 2], 10, []⟩ : WorkerSt Nat)).1 = false
        ∧ (pullPhase (⟨RecvEnd.inThread, true, true, 2, [some 1, some 2], 10, []⟩ : WorkerSt Nat)).2.1 = some [1, 2]) := by
  refine ⟨?_, ⟨by decide, ?_⟩, ?_⟩
  · have h := (c4_is_busy_amended (T := Nat)).1
      ⟨RecvEnd.inThread, true, true, 2, [some 1, some 2], 10, []⟩
    simpa using h
  · exact (c4_is_busy_amended (T := Nat)).2.1
      ⟨RecvEnd.inThread, true, true, 2, [some 1, some 2], 10, []⟩ 5 (by decide)
  · exact (c4_is_busy_amended (T := Nat)).2.2
      ⟨RecvEnd.inThread, true, true, 2, [some 1, some 2], 10, []⟩ [1, 2]
      rfl rfl rfl (by decide) rfl (by decide)

/-- C5, counterexample to the claim as stated: immediately after stop() the
consumer thread still holds the channel receiver (it has not yet dequeued
the sentinel), so a schedule() call still succeeds - the task is enqueued
behind the sentinel and will never run, but no Stopped error is returned. -/
theorem c5_schedule_after_stop_counterexample :
    (schedule (stop (start_batch (newWorker Nat) 1).1).1 7).2 = none :=
  rfl

/-- C5 amended: after stop(), once the worker thread has dequeued the stop
sentinel and exited - dropping the channel receiver - every subsequent
schedule(task) call returns the Stopped rejection error carrying the
original task back unchanged (and leaves the worker state unchanged);
a schedule() racing ahead of the thread's exit may still return Ok. -/
theorem c5_schedule_after_stop_amended {T : Type} (st : WorkerSt T) (task : T)
    (h : st.recvEnd = RecvEnd.dropped) :
    schedule st task = (st, some task) := by
  simp [schedule, h]

/-- Witness for c5_schedule_after_stop_amended: start, stop, then one consumer
step (which dequeues the sentinel and drops the receiver); scheduling task 7
now returns Stopped carrying 7. -/
theorem c5_schedule_after_stop_amended_witness :
    (pollStep (stop (start_batch (newWorker Nat) 1).1).1).recvEnd = RecvEnd.dropped
    ∧ schedule (pollStep (stop (start_batch (newWorker Nat) 1).1).1) 7
        = (pollStep (stop (start_batch (newWorker Nat) 1).1).1, some 7) :=
  ⟨rfl, c5_schedule_after_stop_amended _ 7 rfl⟩

/-- C9: once the receiver has been taken out of the Worker (it was started
before, including a worker stopped since), start_batch returns Ok without
spawning a thread and leaves the state unchanged; and no operation ever puts
the receiver back (schedule, stop and consumer steps preserve its absence,
and starting a fresh worker removes it), so a stopped worker can never be
restarted even though start on it still reports success. -/
theorem c9_start_after_receiver_taken {T : Type} (st : WorkerSt T)
    (bs bs2 : Nat) (task : T) (h : st.recvEnd ≠ RecvEnd.inWorker) :
    start_batch st bs = (st, false)
    ∧ (schedule st task).1.recvEnd ≠ RecvEnd.inWorker
    ∧ (stop st).1.recvEnd ≠ RecvEnd.inWorker
    ∧ (pollStep st).recvEnd ≠ RecvEnd.inWorker
    ∧ ((start_batch (newWorker T) bs2).1).recvEnd ≠ RecvEnd.inWorker := by
  refine ⟨?_, ?_, ?_, ?_, ?_⟩
  · simp [start_batch, h]
  · by_cases hd : st.recvEnd = RecvEnd.dropped <;> simp [schedule, hd, h]
  · by_cases hh : st.handleSome = false
    · simp [stop, hh, h]
    · by_cases hd : st.recvEnd = RecvEnd.dropped <;> simp [stop, hh, hd, h]
  · rcases pollStep_recvEnd st with he | he <;> rw [he] <;> simp [h]
  · simp [start_batch, newWorker]

/-- Witness for c9_start_after_receiver_taken: a worker that was started and
stopped still has its receiver out of the Worker, and a second start_batch
on it is a no-op success. -/
theorem c9_start_after_receiver_taken_witness :
    ((stop (start_batch (newWorker Nat) 1).1).1.recvEnd ≠ RecvEnd.inWorker)
    ∧ start_batch (stop (start_batch (newWorker Nat) 1).1).1 5
        = ((stop (start_batch (newWorker Nat) 1).1).1, false) :=
  ⟨by decide,
   (c9_start_after_receiver_taken (stop (start_batch (newWorker Nat) 1).1).1
      5 5 0 (by decide)).1⟩

/-- One retry-loop iteration entered without an open connection, in which the
connect or the send/receive round trip fails, sleeps the fixed backoff and
moves on to the next iteration, still without a connection. -/
theorem coreSendLoop_failed_iter (env : Nat → IterEnv) (msg_id fuel i : Nat)
    (addr : SockAddr) (sleeps : List Nat)
    (h : (env i).connect = none ∨ (env i).sendReq = none) :
    coreSendLoop env msg_id (fuel + 1) i ⟨addr, none⟩ sleeps
      = coreSendLoop env msg_id fuel (i + 1) ⟨addr, none⟩
          (sleeps ++ [RAFT_RPC_RETRY_TIME_MILLIS]) := by
  rcases h with hc | hs
  · simp [coreSendLoop, hc]
  · cases hcc : (env i).connect with
    | none => simp [coreSendLoop, hcc]
    | some u => simp [coreSendLoop, hcc, coreAttempt, hs]

/-- The retry loop consults the environment only at iterations i, ..,
i + fuel - 1: environments that agree there give identical runs. -/
theorem coreSendLoop_env_agree (env env2 : Nat → IterEnv) (msg_id : Nat) :
    ∀ (fuel i : Nat) (st : CoreState) (sleeps : List Nat),
      (∀ j, i ≤ j → j < i + fuel → env j = env2 j) →
      coreSendLoop env msg_id fuel i st sleeps
        = coreSendLoop env2 msg_id fuel i st sleeps := by
  intro fuel
  induction fuel with
  | zero => intro i st sleeps _; rfl
  | succ n ih =>
    intro i st sleeps h
    have he : env i = env2 i := h i (Nat.le_refl i) (by omega)
    have ihs : ∀ (st2 : CoreState) (sleeps2 : List Nat),
        coreSendLoop env msg_id n (i + 1) st2 sleeps2
          = coreSendLoop env2 msg_id n (i + 1) st2 sleeps2 :=
      fun st2 sleeps2 => ih (i + 1) st2 sleeps2 (fun j h1 h2 => h j (by omega) (by omega))
    cases hst : st.stream with
    | some u =>
      simp only [coreSendLoop, hst, he]
      cases coreAttempt msg_id ((env2 i).sendReq) st with
      | some r => rfl
      | none => exact ihs _ _
    | none =>
      simp only [coreSendLoop, hst, he]
      cases ((env2 i).connect) with
      | none => exact ihs _ _
      | some u =>
        cases coreAttempt msg_id ((env2 i).sendReq) { st with stream := some () } with
        | some r => rfl
        | none => exact ihs _ _

/-- C6: RaftRpcClientCore::send makes at most
MAX_RAFT_RPC_SEND_RETRY_COUNT (= 2) attempts.  First conjunct: starting
without an open connection, if in each of the two attempts the connect or
the send/receive round trip fails, the result is the generic send-failure
error naming the target address (never a success), the connection is
discarded, and each failed attempt slept the fixed
RAFT_RPC_RETRY_TIME_MILLIS (= 50) ms backoff.  Second conjunct: the outcome
depends on at most the first two iterations of the environment - no third
attempt is ever consulted. -/
theorem c6_send_retry_budget (msg_id : Nat) (addr : SockAddr) :
    (∀ env : Nat → IterEnv,
      (∀ i, i < MAX_RAFT_RPC_SEND_RETRY_COUNT →
        (env i).connect = none ∨ (env i).sendReq = none) →
      coreSend env msg_id ⟨addr, none⟩
        = (SendOutcome.errExhausted addr, ⟨addr, none⟩,
           [RAFT_RPC_RETRY_TIME_MILLIS, RAFT_RPC_RETRY_TIME_MILLIS]))
    ∧ (∀ (env env2 : Nat → IterEnv) (st : CoreState),
        (∀ i, i < MAX_RAFT_RPC_SEND_RETRY_COUNT → env i = env2 i) →
        coreSend env msg_id st = coreSend env2 msg_id st) := by
  constructor
  · intro env hfail
    have h0 := hfail 0 (by norm_num [MAX_RAFT_RPC_SEND_RETRY_COUNT])
    have h1 := hfail 1 (by norm_num [MAX_RAFT_RPC_SEND_RETRY_COUNT])
    show coreSendLoop env msg_id MAX_RAFT_RPC_SEND_RETRY_COUNT 0 ⟨addr, none⟩ [] = _
    rw [show MAX_RAFT_RPC_SEND_RETRY_COUNT = 1 + 1 from rfl,
        coreSendLoop_failed_iter env msg_id 1 0 addr [] h0,
        coreSendLoop_failed_iter env msg_id 0 1 addr _ h1]
    rfl
  · intro env env2 st hagree
    exact coreSendLoop_env_agree env env2 msg_id MAX_RAFT_RPC_SEND_RETRY_COUNT 0 st []
      (fun j h1 h2 => hagree j (by omega))

/-- Witness for c6_send_retry_budget: an environment in which every connect
fails makes send return the exhausted-retries error naming address 77 after
two 50 ms sleeps, and an environment differing only from the third
iteration on gives the same outcome. -/
theorem c6_send_retry_budget_witness :
    (∀ i, i < MAX_RAFT_RPC_SEND_RETRY_COUNT →
      ((fun _ => (⟨none, none⟩ : IterEnv)) i).connect = none
      ∨ ((fun _ => (⟨none, none⟩ : IterEnv)) i).sendReq = none)
    ∧ coreSend (fun _ => ⟨none, none⟩) 5 ⟨77, none⟩
        = (SendOutcome.errExhausted 77, ⟨77, none⟩,
           [RAFT_RPC_RETRY_TIME_MILLIS, RAFT_RPC_RETRY_TIME_MILLIS])
    ∧ coreSend (fun _ => ⟨none, none⟩) 5 ⟨77, none⟩
        = coreSend (fun i => if i < 2 then ⟨none, none⟩ else ⟨some (), some (5, 9)⟩) 5
            ⟨77, none⟩ :=
  ⟨by decide,
   (c6_send_retry_budget 5 77).1 (fun _ => ⟨none, none⟩) (by decide),
   (c6_send_retry_budget 5 77).2 (fun _ => ⟨none, none⟩)
     (fun i => if i < 2 then ⟨none, none⟩ else ⟨some (), some (5, 9)⟩)
     ⟨77, none⟩ (by decide)⟩

/-- C7: if an attempt receives a well-formed response whose correlation id
differs from the request's message id, send returns the protocol error
immediately: no sleeps, no further attempts (the rest of the environment is
arbitrary and unconsulted), and the result is an error, never a success.
The connection the response arrived on is discarded. -/
theorem c7_mismatched_id_protocol_error (env : Nat → IterEnv)
    (msg_id id resp : Nat) (addr : SockAddr)
    (hc : (env 0).connect = some ())
    (hs : (env 0).sendReq = some (id, resp))
    (hne : id ≠ msg_id) :
    coreSend env msg_id ⟨addr, none⟩
      = (SendOutcome.errMismatch msg_id id, ⟨addr, none⟩, []) := by
  show coreSendLoop env msg_id MAX_RAFT_RPC_SEND_RETRY_COUNT 0 ⟨addr, none⟩ [] = _
  rw [show MAX_RAFT_RPC_SEND_RETRY_COUNT = 1 + 1 from rfl]
  simp [coreSendLoop, hc, hs, coreAttempt, hne]

/-- Witness for c7_mismatched_id_protocol_error: request id 5, response id 9:
send returns the mismatch protocol error at once. -/
theorem c7_mismatched_id_protocol_error_witness :
    ((fun _ => (⟨some (), some (9, 42)⟩ : IterEnv)) 0).connect = some ()
    ∧ ((fun _ => (⟨some (), some (9, 42)⟩ : IterEnv)) 0).sendReq = some (9, 42)
    ∧ (9 : Nat) ≠ 5
    ∧ coreSend (fun _ => ⟨some (), some (9, 42)⟩) 5 ⟨77, none⟩
        = (SendOutcome.errMismatch 5 9, ⟨77, none⟩, []) :=
  ⟨rfl, rfl, by decide,
   c7_mismatched_id_protocol_error (fun _ => ⟨some (), some (9, 42)⟩) 5 9 42 77
     rfl rfl (by decide)⟩

/-- The wrapping counter behind alloc_msg_id holds k mod 2^64 before the k-th
call. -/
theorem msgIdCounterAt_eq (k : Nat) : msgIdCounterAt k = k % U64_MOD := by
  induction k with
  | zero => rfl
  | succ n ih =>
    show (alloc_msg_id (msgIdCounterAt n)).2 = (n + 1) % U64_MOD
    rw [ih]
    show (n % U64_MOD + 1) % U64_MOD = (n + 1) % U64_MOD
    simp [U64_MOD]

/-- The k-th allocated message id is k mod 2^64. -/
theorem msgIdSeq_eq (k : Nat) : msgIdSeq k = k % U64_MOD := by
  show (alloc_msg_id (msgIdCounterAt k)).1 = k % U64_MOD
  rw [msgIdCounterAt_eq]
  show k % U64_MOD % U64_MOD = k % U64_MOD
  simp [U64_MOD]

/-- C8, counterexample to the claim as stated: the AtomicUsize behind
alloc_msg_id wraps modulo 2^64, so the id allocated by call number 2^64
equals the id of call number 0 and is smaller than its predecessor - the
sequence over an unbounded instance lifetime is neither unique nor strictly
increasing. -/
theorem c8_msg_id_counterexample :
    msgIdSeq U64_MOD = msgIdSeq 0
    ∧ 0 < U64_MOD
    ∧ ¬ msgIdSeq (U64_MOD - 1) < msgIdSeq U64_MOD := by
  refine ⟨?_, by norm_num [U64_MOD], ?_⟩
  · rw [msgIdSeq_eq, msgIdSeq_eq]
    simp
  · rw [msgIdSeq_eq, msgIdSeq_eq, Nat.mod_self,
        Nat.mod_eq_of_lt (by norm_num [U64_MOD])]
    exact Nat.not_lt_zero _

/-- C8 amended: the ids handed out by successive alloc_msg_id calls are
k mod 2^64 for the k-th call; they are unique and strictly increasing among
the first 2^64 calls of an instance, and wrap around afterwards. -/
theorem c8_msg_id_amended (j k : Nat) (hjk : j < k) (hk : k < U64_MOD) :
    msgIdSeq j < msgIdSeq k ∧ msgIdSeq j ≠ msgIdSeq k := by
  rw [msgIdSeq_eq, msgIdSeq_eq, Nat.mod_eq_of_lt (lt_trans hjk hk),
      Nat.mod_eq_of_lt hk]
  exact ⟨hjk, Nat.ne_of_lt hjk⟩

/-- Witness for c8_msg_id_amended: the first id is smaller than the second. -/
theorem c8_msg_id_amended_witness :
    0 < 1 ∧ 1 < U64_MOD ∧ msgIdSeq 0 < msgIdSeq 1 ∧ msgIdSeq 0 ≠ msgIdSeq 1 :=
  ⟨by decide, by norm_num [U64_MOD],
   (c8_msg_id_amended 0 1 (by decide) (by norm_num [U64_MOD])).1,
   (c8_msg_id_amended 0 1 (by decide) (by norm_num [U64_MOD])).2⟩

/-- C10: the Display impl for TaskContext interpolates self.region into both
the region slot and the local_region: slot (pieces 3 and 7 of the written
string), and the local_region field feeds no slot at all, so two contexts
differing only in local_region format identically. -/
theorem c10_display_local_region (c : TaskContext) (r2 : Region) :
    fmtTaskContext { c with local_region := r2 } = fmtTaskContext c
    ∧ (fmtTaskContextPieces c).getD 3 "" = fmtRegion c.region
    ∧ (fmtTaskContextPieces c).getD 7 "" = fmtRegion c.region :=
  ⟨rfl, rfl, rfl⟩

end Tikv
